import Mathlib

/-!
Verification development for the commerce-precision-engine frontend against
its design specification.

JavaScript strings are modelled as sequences of UTF-16 code units
(`List Nat`); `localStorage` is modelled by explicit state passing; the
numeric quantities of the four-layer pipeline are modelled over `ℚ`.
Definitions are shallow embeddings of the TypeScript source
(`frontend/src/data/alphaKeys.ts`, the `AskPage` submit handler, and
`components/VerificationLog.tsx`); the orchestrator itself is not part of
the frontend sources, so it is modelled from the specification where noted.
-/

namespace CPE

/-- JavaScript strings, as sequences of UTF-16 code units. -/
abbrev JsStr := List Nat

/-- Code units of a Lean string literal; used to embed the string constants
of the source. -/
def jstr (s : String) : JsStr := s.data.map Char.toNat

/-- Whitespace code units removed by `String.prototype.trim` (the ASCII
whitespace characters plus NBSP; a representative subset of the JS set). -/
def isWS (c : Nat) : Bool :=
  c == 32 || c == 9 || c == 10 || c == 13 || c == 11 || c == 12 || c == 160

/-- Model of `s.trim()`: drop whitespace from the front, then from the back
(`List.rdropWhile p m` is `(m.reverse.dropWhile p).reverse`). -/
def jsTrim (s : JsStr) : JsStr := List.rdropWhile isWS (s.dropWhile isWS)

/-- Model of `toUpperCase` on a single code unit (ASCII letter range). -/
def upperChar (c : Nat) : Nat := if 97 ≤ c ∧ c ≤ 122 then c - 32 else c

/-- Model of `s.toUpperCase()`. -/
def jsToUpper (s : JsStr) : JsStr := s.map upperChar

/-- The normalisation `key.trim().toUpperCase()` used throughout
`alphaKeys.ts` (local variable `normalized` in the source). -/
def normalizeKey (s : JsStr) : JsStr := jsToUpper (jsTrim s)

/-! ### Constants of `frontend/src/data/alphaKeys.ts` -/

def MASTER_KEY : JsStr := jstr "MASTER-KEY-2024-UNLIMITED"

def ALPHA_KEYS : List JsStr :=
  [ jstr "ALPHA-01-K9M2-P8LQ"
  , jstr "ALPHA-02-X4N7-J3RT"
  , jstr "ALPHA-03-H2W5-V9YD"
  , jstr "ALPHA-04-B6K1-M4PC"
  , jstr "ALPHA-05-Q9F3-Z8XA"
  , jstr "ALPHA-06-L5S7-E2VN"
  , jstr "ALPHA-07-G8H4-T1BM"
  , jstr "ALPHA-08-U3J9-C6WK"
  , jstr "ALPHA-09-D2L8-R5YP"
  , jstr "ALPHA-10-A7N4-F9ZQ"
  , jstr "ALPHA-11-P1K6-H3XM"
  , jstr "ALPHA-12-Y4V9-W2LC"
  , jstr "ALPHA-13-S8B3-J7NR"
  , jstr "ALPHA-14-E5G1-T6YD"
  , jstr "ALPHA-15-M9Q2-K4PA"
  , jstr "ALPHA-16-C3H8-X5VZ"
  , jstr "ALPHA-17-W6F4-B9LS"
  , jstr "ALPHA-18-R2T7-N1JG"
  , jstr "ALPHA-19-Z8M5-D3YQ"
  , jstr "ALPHA-20-K4P9-C6HX"
  , jstr "ALPHA-21-V1L3-W7RA"
  , jstr "ALPHA-22-Y9S2-E8NB"
  , jstr "ALPHA-23-F6X4-G1TK"
  , jstr "ALPHA-24-H3Z7-Q5MC"
  , jstr "ALPHA-25-B8J1-P9VD"
  , jstr "ALPHA-26-L2R6-K3YF"
  , jstr "ALPHA-27-N9W4-A7SQ"
  , jstr "ALPHA-28-T5H8-Z2LP"
  , jstr "ALPHA-29-D1G3-X6NM"
  , jstr "ALPHA-30-U7C9-B4JK"
  , jstr "ALPHA-31-E2V5-R8WQ"
  , jstr "ALPHA-32-M6L1-Y9TF"
  , jstr "ALPHA-33-Q3P7-H2ZX"
  , jstr "ALPHA-34-S9A4-K5ND"
  , jstr "ALPHA-35-J8E2-C7VM"
  , jstr "ALPHA-36-G1Y6-W3RQ"
  , jstr "ALPHA-37-X4B9-L8SP"
  , jstr "ALPHA-38-Z7T2-F1HA"
  , jstr "ALPHA-39-C5N3-J9KD"
  , jstr "ALPHA-40-W8M6-U4YG"
  , jstr "ALPHA-41-A3Q7-P2RV"
  , jstr "ALPHA-42-R9L1-E5ZC"
  , jstr "ALPHA-43-H2S8-T6JB"
  , jstr "ALPHA-44-V4X9-N3WK"
  , jstr "ALPHA-45-K7D1-G8MQ"
  , jstr "ALPHA-46-Y5P2-B4LF"
  , jstr "ALPHA-47-F9H3-X7NA"
  , jstr "ALPHA-48-N6T4-Z1CS"
  , jstr "ALPHA-49-L8J5-V9YR"
  , jstr "ALPHA-50-P3E7-W2DK" ]

/-- A JavaScript number that is either an integer or `Infinity`
(`maxUploads` is `20` or `Infinity` in the source). -/
inductive JsNum where
  | int (n : Int)
  | inf
  deriving DecidableEq, Repr

/-- Entry of the `alpha_used_keys` list stored in `localStorage`. -/
structure UsedKeyInfo where
  key : JsStr
  usedAt : JsStr
  userId : JsStr
  deriving DecidableEq, Repr

/-- The `alpha_current_user` record stored in `localStorage`. -/
structure UserData where
  userId : JsStr
  key : JsStr
  isMaster : Bool
  uploadCount : Int
  maxUploads : JsNum
  createdAt : JsStr
  deriving DecidableEq, Repr

def MAX_UPLOADS_REGULAR : Int := 20

/-- The `localStorage` slots touched by `alphaKeys.ts`: the used-key list
and the current-user record. -/
structure KeyStoreState where
  usedKeys : List UsedKeyInfo
  currentUser : Option UserData
  deriving DecidableEq, Repr

def isMasterKey (key : JsStr) : Bool :=
  normalizeKey key == MASTER_KEY

def isValidAlphaKey (key : JsStr) : Bool :=
  let normalized := normalizeKey key
  normalized == MASTER_KEY || ALPHA_KEYS.contains normalized

def isAlphaKeyUsed (usedKeys : List UsedKeyInfo) (key : JsStr) : Bool :=
  let normalized := normalizeKey key
  usedKeys.any fun u => u.key == normalized

/-- `markAlphaKeyAsUsed`: push the normalised key onto the stored list
unless it is already present (`now` stands for `new Date().toISOString()`). -/
def markAlphaKeyAsUsed (usedKeys : List UsedKeyInfo) (key userId now : JsStr) :
    List UsedKeyInfo :=
  let normalized := normalizeKey key
  if usedKeys.any fun u => u.key == normalized then usedKeys
  else usedKeys ++ [⟨normalized, now, userId⟩]

/-- `createUserData`: build (and store) the current-user record. -/
def createUserData (key userId now : JsStr) : UserData :=
  let isMaster := isMasterKey key
  { userId := userId
    key := normalizeKey key
    isMaster := isMaster
    uploadCount := 0
    maxUploads := if isMaster then JsNum.inf else JsNum.int MAX_UPLOADS_REGULAR
    createdAt := now }

/-- Result record of `validateAndUseAlphaKey`. -/
structure ValidationResult where
  valid : Bool
  error : Option JsStr
  isMaster : Option Bool
  deriving DecidableEq, Repr

def invalidKeyError : JsStr := jstr "Invalid alpha key. Please check and try again."

def usedKeyError : JsStr :=
  jstr "This alpha key has already been used. Each key can only be used once."

/-- `validateAndUseAlphaKey`: validate, reject reuse of non-master keys,
then mark the key used and store the user record. -/
def validateAndUseAlphaKey (st : KeyStoreState) (key userId now : JsStr) :
    ValidationResult × KeyStoreState :=
  let normalized := normalizeKey key
  if ¬ isValidAlphaKey normalized then
    (⟨false, some invalidKeyError, none⟩, st)
  else if isAlphaKeyUsed st.usedKeys normalized ∧ ¬ isMasterKey normalized then
    (⟨false, some usedKeyError, none⟩, st)
  else
    let usedKeys := markAlphaKeyAsUsed st.usedKeys normalized userId now
    let user := createUserData normalized userId now
    (⟨true, none, some (isMasterKey normalized)⟩,
      { usedKeys := usedKeys, currentUser := some user })

def getRemainingKeysCount (usedKeys : List UsedKeyInfo) : Int :=
  (ALPHA_KEYS.length : Int) - usedKeys.length

/-- `user.uploadCount >= user.maxUploads`, with JS comparison against
`Infinity`. -/
def uploadCountAtCap (uploadCount : Int) : JsNum → Bool
  | JsNum.int m => m ≤ uploadCount
  | JsNum.inf => false

/-- `incrementUploadCount`: acting on the stored current user, returns the
JS boolean result together with the updated store. -/
def incrementUploadCount (user : Option UserData) : Bool × Option UserData :=
  match user with
  | none => (false, none)
  | some u =>
    if u.isMaster then (true, some u)
    else if uploadCountAtCap u.uploadCount u.maxUploads then (false, some u)
    else (true, some { u with uploadCount := u.uploadCount + 1 })

/-- `maxUploads - uploadCount` with JS `Infinity` arithmetic. -/
def jsSub (a : JsNum) (b : Int) : JsNum :=
  match a with
  | JsNum.int n => JsNum.int (n - b)
  | JsNum.inf => JsNum.inf

/-- `Math.max(0, v)`. -/
def jsMax0 : JsNum → JsNum
  | JsNum.int n => JsNum.int (max 0 n)
  | JsNum.inf => JsNum.inf

/-- `getUploadsRemaining` on the stored current user. -/
def getUploadsRemaining (user : Option UserData) : JsNum :=
  match user with
  | none => JsNum.int 0
  | some u =>
    if u.isMaster then JsNum.inf
    else jsMax0 (jsSub u.maxUploads u.uploadCount)

/-- A JS number that is not negative (`Infinity` counts as non-negative). -/
def JsNum.nonneg : JsNum → Prop
  | JsNum.int n => 0 ≤ n
  | JsNum.inf => True

/-! ### The AskPage submit handler (`handleSubmit`) -/

/-- The `AskQuestionRequest` payload of `questionsService.askQuestion`,
mirroring the interface in `frontend/src/types`. -/
structure AskQuestionRequest where
  subject_id : JsStr
  chapter_id : Option JsStr
  question_text : JsStr
  deriving DecidableEq, Repr

/-- The `handleSubmit` handler of `AskPage`: local fast-fail validation.
`none` models an early return (error toast shown, `askQuestion` never
called); `some r` is the payload passed to `questionsService.askQuestion`. -/
def handleSubmit (selectedSubject selectedChapter questionText : JsStr) :
    Option AskQuestionRequest :=
  if selectedSubject.isEmpty then none
  else if (jsTrim questionText).isEmpty || decide (questionText.length < 10) then none
  else some
    { subject_id := selectedSubject
      chapter_id := if selectedChapter.isEmpty then none else some selectedChapter
      question_text := jsTrim questionText }

/-! ### The four-layer pipeline

The stage-output record types mirror `Layer1Output` … `Layer4Output` of
`frontend/src/types`.  The orchestrator and the stage adapters live in the
backend, which is not among the frontend sources; every definition marked
`Modelled from the spec` below is taken from §4 of the specification. -/

/-- Ordinal audit severity. -/
inductive Severity where
  | none
  | low
  | medium
  | high
  deriving DecidableEq, Repr

/-- Generator stage output (`Layer1Output`). -/
structure Layer1Output where
  answer : JsStr
  key_points : List JsStr
  referenced_concepts : List JsStr
  confidence : ℚ
  deriving DecidableEq, Repr

/-- Validator stage output (`Layer2Output`). -/
structure Layer2Output where
  syllabus_alignment : JsStr
  missing_keywords : List JsStr
  irrelevant_points : List JsStr
  alignment_score : ℚ
  deriving DecidableEq, Repr

/-- Auditor stage output (`Layer3Output`). -/
structure Layer3Output where
  logical_errors : List JsStr
  severity : Severity
  deriving DecidableEq, Repr

/-- Scorer stage output (`Layer4Output`). -/
structure Layer4Output where
  predicted_score : ℚ
  max_marks : ℚ
  score_percentage : ℚ
  missing_components : List JsStr
  deriving DecidableEq, Repr

/-- Modelled from the spec: the Scorer adapter (backend, not in the frontend
sources) clamps `predicted_score` to `[0, max_marks]` even when the
underlying model returns an out-of-range raw value, and records
`score_percentage = predicted_score / max_marks × 100`. -/
def mkLayer4Output (rawScore max_marks : ℚ) (missing : List JsStr) : Layer4Output :=
  let predicted := max 0 (min rawScore max_marks)
  { predicted_score := predicted
    max_marks := max_marks
    score_percentage := predicted / max_marks * 100
    missing_components := missing }

/-- Modelled from the spec: the inverse function of Auditor severity
(none = 100, low = 75, medium = 50, high = 0). -/
def invSeverity : Severity → ℚ
  | Severity.none => 100
  | Severity.low => 75
  | Severity.medium => 50
  | Severity.high => 0

/-- Modelled from the spec: `confidence_score` as a weighted combination of
the Generator confidence (rescaled from [0,1] to [0,100]), the alignment
score, the inverse severity and the score percentage.  The spec leaves the
exact weighting an implementation choice subject to monotonicity and
determinism; equal weights are used here. -/
def confidenceScore (generatorConfidence alignment : ℚ) (sev : Severity)
    (scorePct : ℚ) : ℚ :=
  (100 * generatorConfidence + alignment + invSeverity sev + scorePct) / 4

/-- The immutable pipeline input (§3 of the spec). -/
structure Question where
  subject_id : JsStr
  chapter_id : Option JsStr
  question_text : JsStr
  syllabus_context : Option JsStr
  deriving DecidableEq, Repr

/-- Modelled from the spec: the Model Client capability, one structured call
per stage.  The `Nat` argument is the attempt index and the `Option JsStr`
the corrective feedback injected into the Generator on retries; the Scorer
call returns the raw (possibly out-of-range) predicted score, the maximum
marks and the missing components. -/
structure ModelClient where
  generate : Question → Nat → Option JsStr → Layer1Output
  validate : Question → Nat → Layer1Output → Layer2Output
  audit : Question → Nat → Layer1Output → Layer3Output
  score : Question → Nat → Layer1Output → ℚ × ℚ × List JsStr

/-- The four stage outputs of one attempt. -/
structure StageResults where
  gen : Layer1Output
  val : Layer2Output
  aud : Layer3Output
  sco : Layer4Output

/-- Modelled from the spec: one sequential pass through the four stages —
each stage consumes the Generator output of the same attempt. -/
def runStages (client : ModelClient) (q : Question) (attempt : Nat)
    (fb : Option JsStr) : StageResults :=
  let gen := client.generate q attempt fb
  let val := client.validate q attempt gen
  let aud := client.audit q attempt gen
  let raw := client.score q attempt gen
  ⟨gen, val, aud, mkLayer4Output raw.1 raw.2.1 raw.2.2⟩

/-- Modelled from the spec: the three quality gates of §4.1 — alignment at
or above threshold, audit severity below `high`, and score percentage at or
above threshold. -/
def stagesOk (threshold : ℚ) (sr : StageResults) : Bool :=
  decide (threshold ≤ sr.val.alignment_score) &&
  decide (sr.aud.severity ≠ Severity.high) &&
  decide (threshold ≤ sr.sco.score_percentage)

/-- Modelled from the spec: corrective feedback assembled from the failed
quality checks (missing keywords, logical errors, missing components). -/
def mkFeedback (sr : StageResults) : JsStr :=
  (sr.val.missing_keywords ++ sr.aud.logical_errors ++ sr.sco.missing_components).flatten

/-- Terminal status of a run. -/
inductive RunStatus where
  | succeeded
  | failed
  deriving DecidableEq, Repr

/-- The aggregated verified-answer record, mirroring `Answer` in
`frontend/src/types` (persistence metadata omitted). -/
structure FinalAnswer where
  final_answer : JsStr
  confidence_score : ℚ
  layer1_output : Layer1Output
  layer2_output : Layer2Output
  layer3_output : Layer3Output
  layer4_output : Layer4Output
  retries : Nat
  status : RunStatus

/-- Modelled from the spec: the human-readable failure explanation attached
when the retry budget is exhausted; the last outputs stay attached for
diagnostics. -/
def failureMessage : JsStr :=
  jstr "Answer generation failed: the quality checks were still failing when the retry budget was exhausted. The last attempt is attached for diagnostic purposes only."

/-- Tags of the stage invocations, used to record the invocation order. -/
inductive StageTag where
  | generator
  | validator
  | auditor
  | scorer
  deriving DecidableEq, Repr

/-- One Generator → Validator → Auditor → Scorer block. -/
def stageBlock : List StageTag :=
  [StageTag.generator, StageTag.validator, StageTag.auditor, StageTag.scorer]

/-- `n` consecutive stage blocks. -/
def stageBlocks : Nat → List StageTag
  | 0 => []
  | n + 1 => stageBlock ++ stageBlocks n

/-- The derived confidence of one attempt, from its four stage outputs. -/
def attemptConfidence (sr : StageResults) : ℚ :=
  confidenceScore sr.gen.confidence sr.val.alignment_score
    sr.aud.severity sr.sco.score_percentage

/-- The FinalAnswer of a run whose last attempt passed all quality gates. -/
def successAnswer (sr : StageResults) (attempt : Nat) : FinalAnswer :=
  { final_answer := sr.gen.answer
    confidence_score := attemptConfidence sr
    layer1_output := sr.gen
    layer2_output := sr.val
    layer3_output := sr.aud
    layer4_output := sr.sco
    retries := attempt
    status := RunStatus.succeeded }

/-- The FinalAnswer of a run whose retry budget is exhausted: status
`failed`, the failure explanation in `final_answer`, the last outputs
attached for diagnostics. -/
def exhaustedAnswer (sr : StageResults) (attempt : Nat) : FinalAnswer :=
  { final_answer := failureMessage
    confidence_score := attemptConfidence sr
    layer1_output := sr.gen
    layer2_output := sr.val
    layer3_output := sr.aud
    layer4_output := sr.sco
    retries := attempt
    status := RunStatus.failed }

/-- Modelled from the spec (§4.1): the retry loop of the Orchestrator.  Run
the four stages in order; when a quality gate fails and retry budget
remains, loop back to the Generator with corrective feedback; when the
budget is exhausted, terminate with status `failed`, the failure
explanation, and the last outputs attached.  The second component is the
trace of stage invocations. -/
def pipelineLoop (client : ModelClient) (q : Question) (threshold : ℚ) :
    Nat → Nat → Option JsStr → FinalAnswer × List StageTag
  | fuel, attempt, fb =>
    let sr := runStages client q attempt fb
    if stagesOk threshold sr then (successAnswer sr attempt, stageBlock)
    else
      match fuel with
      | 0 => (exhaustedAnswer sr attempt, stageBlock)
      | fuel + 1 =>
        let rest := pipelineLoop client q threshold fuel (attempt + 1) (some (mkFeedback sr))
        (rest.1, stageBlock ++ rest.2)

/-- Modelled from the spec: the Orchestrator entry point — one Question, a
quality threshold and a global retry budget; it returns exactly one
FinalAnswer together with the stage-invocation trace.  The function is
total, so every run terminates. -/
def orchestrate (client : ModelClient) (q : Question) (threshold : ℚ)
    (retryBudget : Nat) : FinalAnswer × List StageTag :=
  pipelineLoop client q threshold retryBudget 0 none

/-- Well-formed Model Client responses: generator confidence in `[0,1]`,
alignment score in `[0,100]`, and non-negative maximum marks. -/
def ClientWF (client : ModelClient) : Prop :=
  (∀ q a fb, 0 ≤ (client.generate q a fb).confidence ∧
    (client.generate q a fb).confidence ≤ 1) ∧
  (∀ q a g, 0 ≤ (client.validate q a g).alignment_score ∧
    (client.validate q a g).alignment_score ≤ 100) ∧
  (∀ q a g, 0 ≤ (client.score q a g).2.1)

/-- A Model Client reporting low quality on every attempt of a run: every
attempt fails the quality gates. -/
def AlwaysLowQuality (client : ModelClient) (q : Question) (threshold : ℚ) : Prop :=
  ∀ attempt fb, stagesOk threshold (runStages client q attempt fb) = false

/-- A concrete mock Model Client that always reports low quality
(alignment 0, high severity, predicted score 0 of 5). -/
def lowQualityClient : ModelClient where
  generate := fun _ _ _ => ⟨jstr "bad answer", [], [], 0⟩
  validate := fun _ _ _ => ⟨jstr "not aligned", [jstr "keyword"], [], 0⟩
  audit := fun _ _ _ => ⟨[jstr "contradiction"], Severity.high⟩
  score := fun _ _ _ => (0, 5, [jstr "everything"])

/-- A concrete mock Model Client with maximal-quality, well-formed
responses. -/
def goodClient : ModelClient where
  generate := fun _ _ _ => ⟨jstr "thorough answer", [jstr "point"], [jstr "concept"], 9 / 10⟩
  validate := fun _ _ _ => ⟨jstr "well aligned", [], [], 90⟩
  audit := fun _ _ _ => ⟨[], Severity.none⟩
  score := fun _ _ _ => (9 / 2, 5, [])

/-- A concrete sample Question. -/
def sampleQuestion : Question :=
  ⟨jstr "accountancy", none, jstr "Explain the concept of partnership accounting.", none⟩

/-- A concrete mock Model Client whose raw predicted score (12) exceeds the
maximum marks (5). -/
def outOfRangeClient : ModelClient where
  generate := fun _ _ _ => ⟨jstr "overconfident answer", [], [], 1⟩
  validate := fun _ _ _ => ⟨jstr "fully aligned", [], [], 100⟩
  audit := fun _ _ _ => ⟨[], Severity.none⟩
  score := fun _ _ _ => (12, 5, [])

/-- A concrete stored non-master user at the upload cap. -/
def capUser : UserData :=
  { userId := jstr "user-1"
    key := jstr "ALPHA-01-K9M2-P8LQ"
    isMaster := false
    uploadCount := 20
    maxUploads := JsNum.int 20
    createdAt := jstr "t0" }

/-- A concrete stored non-master user below the upload cap. -/
def freshUser : UserData :=
  { userId := jstr "user-2"
    key := jstr "ALPHA-02-X4N7-J3RT"
    isMaster := false
    uploadCount := 3
    maxUploads := JsNum.int 20
    createdAt := jstr "t1" }

/-- The user record stored by a login with alpha key 01 (entered in lower
case with surrounding whitespace). -/
def storedAlphaUser : UserData :=
  { userId := jstr "user-1"
    key := jstr "ALPHA-01-K9M2-P8LQ"
    isMaster := false
    uploadCount := 0
    maxUploads := JsNum.int 20
    createdAt := jstr "t0" }

/-! ### The verification record (`VerificationLog.tsx`) -/

/-- One entry of the `layers` array in `VerificationLog.tsx`; the
presentational JSX fields are omitted, the layer number and name are kept. -/
structure LayerEntry where
  id : Nat
  name : JsStr
  deriving DecidableEq, Repr

/-- The `layers` array of `VerificationLog`: the order in which the
verification record presents the four layers. -/
def verificationLayers : List LayerEntry :=
  [ ⟨1, jstr "Generator"⟩
  , ⟨2, jstr "Validator"⟩
  , ⟨3, jstr "Auditor"⟩
  , ⟨4, jstr "Scorer"⟩ ]

/-! ### String-normalisation lemmas -/

lemma upperChar_def (c : Nat) :
    upperChar c = if 97 ≤ c ∧ c ≤ 122 then c - 32 else c := rfl

lemma upperChar_idem (c : Nat) : upperChar (upperChar c) = upperChar c := by
  rw [upperChar_def c]
  split
  · next h => rw [upperChar_def, if_neg (by omega)]
  · next h => rw [upperChar_def, if_neg h]

lemma isWS_eq_false (x : Nat) (h1 : 33 ≤ x) (h2 : x ≠ 160) : isWS x = false := by
  simp only [isWS, Bool.or_eq_false_iff, beq_eq_false_iff_ne, ne_eq]
  omega

lemma isWS_upperChar (c : Nat) : isWS (upperChar c) = isWS c := by
  rw [upperChar_def c]
  split
  · next h =>
    rw [isWS_eq_false (c - 32) (by omega) (by omega),
      isWS_eq_false c (by omega) (by omega)]
  · rfl

lemma dropWhile_isWS_map_upper (l : JsStr) :
    (l.map upperChar).dropWhile isWS = (l.dropWhile isWS).map upperChar := by
  rw [List.dropWhile_map]
  have h : isWS ∘ upperChar = isWS := funext isWS_upperChar
  rw [h]

lemma rdropWhile_isWS_map_upper (l : JsStr) :
    List.rdropWhile isWS (l.map upperChar) = (List.rdropWhile isWS l).map upperChar := by
  unfold List.rdropWhile
  rw [← List.map_reverse, dropWhile_isWS_map_upper, List.map_reverse]

lemma jsTrim_jsToUpper (s : JsStr) : jsTrim (jsToUpper s) = jsToUpper (jsTrim s) := by
  unfold jsTrim jsToUpper
  rw [dropWhile_isWS_map_upper, rdropWhile_isWS_map_upper]

lemma jsToUpper_idem (s : JsStr) : jsToUpper (jsToUpper s) = jsToUpper s := by
  unfold jsToUpper
  rw [List.map_map]
  have h : upperChar ∘ upperChar = upperChar := funext upperChar_idem
  rw [h]

lemma dropWhile_head_false {p : Nat → Bool} {a : Nat} {l : List Nat}
    (h : List.dropWhile p (a :: l) = a :: l) : p a = false := by
  by_contra hp
  rw [Bool.not_eq_false] at hp
  rw [List.dropWhile_cons, if_pos hp] at h
  have hlen : (List.dropWhile p l).length ≤ l.length := (List.dropWhile_suffix p).length_le
  have := congrArg List.length h
  simp only [List.length_cons] at this
  omega

lemma dropWhile_fix_rdropWhile {p : Nat → Bool} {m : List Nat}
    (h : List.dropWhile p m = m) :
    List.dropWhile p (List.rdropWhile p m) = List.rdropWhile p m := by
  induction m using List.reverseRecOn with
  | nil => simp [List.rdropWhile]
  | append_singleton xs x ih =>
    rw [List.rdropWhile_concat]
    split
    · apply ih
      match xs, h with
      | [], _ => rfl
      | a :: t, h =>
        rw [List.cons_append] at h
        have ha : p a = false := dropWhile_head_false h
        rw [List.dropWhile_cons, if_neg (by simp [ha])]
    · exact h

lemma jsTrim_idem (s : JsStr) : jsTrim (jsTrim s) = jsTrim s := by
  show List.rdropWhile isWS (List.dropWhile isWS (jsTrim s)) = jsTrim s
  rw [show List.dropWhile isWS (jsTrim s) = jsTrim s from
    dropWhile_fix_rdropWhile (List.dropWhile_idempotent isWS s)]
  exact List.rdropWhile_idempotent isWS (List.dropWhile isWS s)

lemma normalizeKey_idem (s : JsStr) : normalizeKey (normalizeKey s) = normalizeKey s := by
  unfold normalizeKey
  rw [jsTrim_jsToUpper, jsTrim_idem, jsToUpper_idem]

/-! ### Alpha-key helper lemmas -/

lemma isValidAlphaKey_normalizeKey (k : JsStr) :
    isValidAlphaKey (normalizeKey k) = isValidAlphaKey k := by
  unfold isValidAlphaKey
  rw [normalizeKey_idem]

lemma isMasterKey_normalizeKey (k : JsStr) :
    isMasterKey (normalizeKey k) = isMasterKey k := by
  unfold isMasterKey
  rw [normalizeKey_idem]

lemma isAlphaKeyUsed_normalizeKey (used : List UsedKeyInfo) (k : JsStr) :
    isAlphaKeyUsed used (normalizeKey k) = isAlphaKeyUsed used k := by
  unfold isAlphaKeyUsed
  rw [normalizeKey_idem]

lemma markAlphaKeyAsUsed_eq (used : List UsedKeyInfo) (k uid now : JsStr) :
    markAlphaKeyAsUsed used k uid now =
      if isAlphaKeyUsed used k then used
      else used ++ [⟨normalizeKey k, now, uid⟩] := rfl

/-- Characterisation of `validateAndUseAlphaKey` with the internal double
normalisation collapsed by idempotence. -/
lemma validateAndUseAlphaKey_eq (st : KeyStoreState) (k uid now : JsStr) :
    validateAndUseAlphaKey st k uid now =
      if ¬ isValidAlphaKey k then (⟨false, some invalidKeyError, none⟩, st)
      else if isAlphaKeyUsed st.usedKeys k ∧ ¬ isMasterKey k then
        (⟨false, some usedKeyError, none⟩, st)
      else
        (⟨true, none, some (isMasterKey k)⟩,
         { usedKeys :=
             if isAlphaKeyUsed st.usedKeys k then st.usedKeys
             else st.usedKeys ++ [⟨normalizeKey k, now, uid⟩]
           currentUser := some
             { userId := uid
               key := normalizeKey k
               isMaster := isMasterKey k
               uploadCount := 0
               maxUploads := if isMasterKey k then JsNum.inf else JsNum.int MAX_UPLOADS_REGULAR
               createdAt := now } }) := by
  unfold validateAndUseAlphaKey createUserData
  simp only [markAlphaKeyAsUsed_eq, isValidAlphaKey_normalizeKey, isMasterKey_normalizeKey,
    isAlphaKeyUsed_normalizeKey, normalizeKey_idem]

/-! ### Pipeline lemmas -/

lemma stageBlocks_succ (n : Nat) : stageBlocks (n + 1) = stageBlock ++ stageBlocks n := rfl

lemma stageBlocks_one : stageBlocks 1 = stageBlock := by
  simp [stageBlocks]

lemma pipelineLoop_spec (client : ModelClient) (q : Question) (th : ℚ) :
    ∀ (fuel attempt : Nat) (fb : Option JsStr),
      attempt ≤ (pipelineLoop client q th fuel attempt fb).1.retries ∧
      (pipelineLoop client q th fuel attempt fb).1.retries ≤ attempt + fuel ∧
      (pipelineLoop client q th fuel attempt fb).2
        = stageBlocks ((pipelineLoop client q th fuel attempt fb).1.retries + 1 - attempt) ∧
      ((pipelineLoop client q th fuel attempt fb).1.status = RunStatus.failed →
        (pipelineLoop client q th fuel attempt fb).1.retries = attempt + fuel ∧
        (pipelineLoop client q th fuel attempt fb).1.final_answer = failureMessage) := by
  intro fuel
  induction fuel with
  | zero =>
    intro attempt fb
    simp only [pipelineLoop]
    split
    · dsimp only [successAnswer]
      refine ⟨le_refl _, by omega, ?_, by simp⟩
      rw [show attempt + 1 - attempt = 1 from by omega, stageBlocks_one]
    · dsimp only [exhaustedAnswer]
      refine ⟨le_refl _, by omega, ?_, fun _ => ⟨by omega, rfl⟩⟩
      rw [show attempt + 1 - attempt = 1 from by omega, stageBlocks_one]
  | succ fuel ih =>
    intro attempt fb
    simp only [pipelineLoop]
    split
    · dsimp only [successAnswer]
      refine ⟨le_refl _, by omega, ?_, by simp⟩
      rw [show attempt + 1 - attempt = 1 from by omega, stageBlocks_one]
    · dsimp only
      obtain ⟨h1, h2, h3, h4⟩ :=
        ih (attempt + 1) (some (mkFeedback (runStages client q attempt fb)))
      refine ⟨by omega, by omega, ?_, fun hf => ?_⟩
      · rw [h3, show (pipelineLoop client q th fuel (attempt + 1)
            (some (mkFeedback (runStages client q attempt fb)))).1.retries + 1 - attempt
          = ((pipelineLoop client q th fuel (attempt + 1)
            (some (mkFeedback (runStages client q attempt fb)))).1.retries + 1 - (attempt + 1)) + 1
          from by omega, stageBlocks_succ]
      · obtain ⟨hr, hm⟩ := h4 hf
        exact ⟨by omega, hm⟩

lemma pipelineLoop_failed_of_lowQuality (client : ModelClient) (q : Question)
    (th : ℚ) (hlow : AlwaysLowQuality client q th) :
    ∀ (fuel attempt : Nat) (fb : Option JsStr),
      (pipelineLoop client q th fuel attempt fb).1.status = RunStatus.failed := by
  intro fuel
  induction fuel with
  | zero =>
    intro attempt fb
    simp only [pipelineLoop, hlow attempt fb]
    rfl
  | succ fuel ih =>
    intro attempt fb
    simp only [pipelineLoop, hlow attempt fb]
    exact ih (attempt + 1) _

lemma pipelineLoop_shape (client : ModelClient) (q : Question) (th : ℚ) :
    ∀ (fuel attempt : Nat) (fb : Option JsStr), ∃ (a : Nat) (fb2 : Option JsStr),
      (pipelineLoop client q th fuel attempt fb).1
          = successAnswer (runStages client q a fb2) a ∨
      (pipelineLoop client q th fuel attempt fb).1
          = exhaustedAnswer (runStages client q a fb2) a := by
  intro fuel
  induction fuel with
  | zero =>
    intro attempt fb
    refine ⟨attempt, fb, ?_⟩
    simp only [pipelineLoop]
    split
    · exact Or.inl rfl
    · exact Or.inr rfl
  | succ fuel ih =>
    intro attempt fb
    simp only [pipelineLoop]
    split
    · exact ⟨attempt, fb, Or.inl rfl⟩
    · exact ih (attempt + 1) _

lemma invSeverity_range (sev : Severity) :
    0 ≤ invSeverity sev ∧ invSeverity sev ≤ 100 := by
  cases sev <;> norm_num [invSeverity]

lemma mkLayer4Output_range (raw m : ℚ) (miss : List JsStr) (hm : 0 ≤ m) :
    0 ≤ (mkLayer4Output raw m miss).predicted_score ∧
    (mkLayer4Output raw m miss).predicted_score ≤ (mkLayer4Output raw m miss).max_marks ∧
    0 ≤ (mkLayer4Output raw m miss).score_percentage ∧
    (mkLayer4Output raw m miss).score_percentage ≤ 100 := by
  have hp0 : (0 : ℚ) ≤ max 0 (min raw m) := le_max_left 0 _
  have hpm : max 0 (min raw m) ≤ m := max_le hm (min_le_right raw m)
  refine ⟨hp0, hpm, ?_, ?_⟩
  · exact mul_nonneg (div_nonneg hp0 hm) (by norm_num)
  · rcases eq_or_lt_of_le hm with hz | hpos
    · have : max 0 (min raw m) = 0 := le_antisymm (hz ▸ hpm) hp0
      simp [mkLayer4Output, this]
    · have h1 : max 0 (min raw m) / m ≤ 1 := (div_le_one hpos).mpr hpm
      calc max 0 (min raw m) / m * 100 ≤ 1 * 100 :=
            mul_le_mul_of_nonneg_right h1 (by norm_num)
        _ = 100 := one_mul 100

lemma confidenceScore_range (g a s : ℚ) (sev : Severity)
    (hg0 : 0 ≤ g) (hg1 : g ≤ 1) (ha0 : 0 ≤ a) (ha1 : a ≤ 100)
    (hs0 : 0 ≤ s) (hs1 : s ≤ 100) :
    0 ≤ confidenceScore g a sev s ∧ confidenceScore g a sev s ≤ 100 := by
  obtain ⟨hi0, hi1⟩ := invSeverity_range sev
  unfold confidenceScore
  constructor
  · apply div_nonneg _ (by norm_num)
    linarith
  · rw [div_le_iff₀ (by norm_num : (0:ℚ) < 4)]
    linarith

lemma attemptConfidence_range (client : ModelClient) (hwf : ClientWF client)
    (q : Question) (a : Nat) (fb : Option JsStr) :
    0 ≤ attemptConfidence (runStages client q a fb) ∧
    attemptConfidence (runStages client q a fb) ≤ 100 := by
  obtain ⟨hgen, hval, hsco⟩ := hwf
  have h4 := mkLayer4Output_range (client.score q a (client.generate q a fb)).1
    (client.score q a (client.generate q a fb)).2.1
    (client.score q a (client.generate q a fb)).2.2
    (hsco q a (client.generate q a fb))
  simp only [attemptConfidence, runStages]
  exact confidenceScore_range _ _ _ _
    (hgen q a fb).1 (hgen q a fb).2
    (hval q a (client.generate q a fb)).1 (hval q a (client.generate q a fb)).2
    h4.2.2.1 h4.2.2.2

/-! ### Claims -/

/-- Claim C2, counterexample: a submission whose raw question text is ten
spaces followed by "ab" (twelve characters) passes the local validation of
`handleSubmit`, and `questionsService.askQuestion` receives the trimmed
payload "ab" of length 2 — so it is false that every `question_text` the
pipeline receives has at least 10 characters. -/
theorem C2_counterexample :
    handleSubmit (jstr "accountancy") (jstr "") (jstr "          ab")
      = some ⟨jstr "accountancy", none, jstr "ab"⟩ ∧
    (jstr "ab").length < 10 := by
  decide

/-- Claim C2 (amended): every submission whose raw question text is shorter
than 10 characters, or whose subject is empty, is rejected by `handleSubmit`
before `questionsService.askQuestion` is called; every payload the pipeline
receives carries the trimmed, non-empty question text of a raw text of
length at least 10 and a non-empty subject (the trimmed text itself may be
shorter than 10 characters when the raw text has surrounding whitespace). -/
theorem C2_local_validation (subj chap q : JsStr) :
    (q.length < 10 ∨ subj = [] → handleSubmit subj chap q = none) ∧
    (∀ r : AskQuestionRequest, handleSubmit subj chap q = some r →
      r.subject_id = subj ∧ r.question_text = jsTrim q ∧
      r.question_text ≠ [] ∧ 10 ≤ q.length ∧ subj ≠ []) := by
  constructor
  · intro h
    unfold handleSubmit
    by_cases hs : subj.isEmpty
    · rw [if_pos hs]
    · rcases h with h | h
      · rw [if_neg hs, if_pos]
        simp [h]
      · exact absurd (List.isEmpty_iff.mpr h) hs
  · intro r hr
    unfold handleSubmit at hr
    split at hr
    · exact absurd hr (by simp)
    · split at hr
      · exact absurd hr (by simp)
      · next hs hc =>
        rw [Bool.or_eq_true, not_or] at hc
        obtain ⟨hc1, hc2⟩ := hc
        injection hr with hr
        subst hr
        refine ⟨rfl, rfl, ?_, ?_, ?_⟩
        · intro hnil
          exact hc1 (by simp [show jsTrim q = [] from hnil])
        · have : ¬ q.length < 10 := by simpa using hc2
          omega
        · intro hnil
          exact hs (by simp [hnil])

/-- Witness for C2_local_validation: a 5-character question is rejected, an
empty subject is rejected, and a well-formed submission passes with its
payload intact. -/
theorem C2_witness :
    handleSubmit (jstr "accountancy") (jstr "") (jstr "short") = none ∧
    handleSubmit (jstr "") (jstr "") (jstr "Explain goodwill accounting.") = none ∧
    (jstr "Explain goodwill accounting." : JsStr) ≠ [] ∧
    10 ≤ (jstr "Explain goodwill accounting.").length := by
  have h := (C2_local_validation (jstr "accountancy") (jstr "")
      (jstr "Explain goodwill accounting.")).2
    ⟨jstr "accountancy", none, jstr "Explain goodwill accounting."⟩ (by decide)
  exact ⟨(C2_local_validation (jstr "accountancy") (jstr "") (jstr "short")).1
      (Or.inl (by decide)),
    (C2_local_validation (jstr "") (jstr "") (jstr "Explain goodwill accounting.")).1
      (Or.inr rfl),
    h.2.2.1, h.2.2.2.1⟩

/-- Claim C8: an accepted, not-previously-seen key is appended (in
normalised form) to the stored used-keys list; `getRemainingKeysCount` is
`ALPHA_KEYS.length` (50) minus the length of that list; hence a first
master-key login decreases the reported remaining-spots count by one even
though no one-time alpha key becomes used; and the master key is accepted
by `validateAndUseAlphaKey` on every login, also when already recorded. -/
theorem C8_alpha_key_accounting :
    (∀ (st : KeyStoreState) (k uid now : JsStr),
      (validateAndUseAlphaKey st k uid now).1.valid = true →
      isAlphaKeyUsed st.usedKeys k = false →
      (validateAndUseAlphaKey st k uid now).2.usedKeys
        = st.usedKeys ++ [⟨normalizeKey k, now, uid⟩]) ∧
    (∀ usedKeys : List UsedKeyInfo,
      getRemainingKeysCount usedKeys = 50 - usedKeys.length) ∧
    (∀ (st : KeyStoreState) (uid now : JsStr),
      isAlphaKeyUsed st.usedKeys MASTER_KEY = false →
      (validateAndUseAlphaKey st MASTER_KEY uid now).1.valid = true ∧
      getRemainingKeysCount (validateAndUseAlphaKey st MASTER_KEY uid now).2.usedKeys
        = getRemainingKeysCount st.usedKeys - 1 ∧
      (∀ ak ∈ ALPHA_KEYS,
        isAlphaKeyUsed (validateAndUseAlphaKey st MASTER_KEY uid now).2.usedKeys ak
          = isAlphaKeyUsed st.usedKeys ak)) ∧
    (∀ (st : KeyStoreState) (uid now : JsStr),
      (validateAndUseAlphaKey st MASTER_KEY uid now).1.valid = true) := by
  have hmk_valid : isValidAlphaKey MASTER_KEY = true := by decide
  have hmk_master : isMasterKey MASTER_KEY = true := by decide
  have hmk_norm : normalizeKey MASTER_KEY = MASTER_KEY := by decide
  have halpha : ∀ ak ∈ ALPHA_KEYS, (MASTER_KEY == normalizeKey ak) = false := by decide
  refine ⟨?_, ?_, ?_, ?_⟩
  · intro st k uid now hv hun
    rw [validateAndUseAlphaKey_eq] at hv ⊢
    by_cases h1 : ¬ isValidAlphaKey k
    · rw [if_pos h1] at hv
      exact absurd hv (by simp)
    · rw [if_neg h1] at hv ⊢
      by_cases h2 : isAlphaKeyUsed st.usedKeys k ∧ ¬ isMasterKey k
      · rw [if_pos h2] at hv
        exact absurd hv (by simp)
      · rw [if_neg h2]
        dsimp only
        rw [if_neg (by simp [hun])]
  · intro usedKeys
    unfold getRemainingKeysCount
    norm_num [show ALPHA_KEYS.length = 50 from rfl]
  · intro st uid now hun
    rw [validateAndUseAlphaKey_eq]
    rw [if_neg (by simp [hmk_valid]), if_neg (fun h => h.2 hmk_master)]
    dsimp only
    rw [if_neg (by simp [hun])]
    refine ⟨rfl, ?_, ?_⟩
    · unfold getRemainingKeysCount
      rw [List.length_append, List.length_singleton]
      push_cast
      ring
    · intro ak hak
      unfold isAlphaKeyUsed
      rw [List.any_append]
      simp [hmk_norm, halpha ak hak]
  · intro st uid now
    rw [validateAndUseAlphaKey_eq]
    rw [if_neg (by simp [hmk_valid]), if_neg (fun h => h.2 hmk_master)]

/-- Witness for C8_alpha_key_accounting: a first master-key login on an
empty store is accepted, appends one entry, and drops the reported count
from 50 to 49. -/
theorem C8_witness :
    (validateAndUseAlphaKey ⟨[], none⟩ MASTER_KEY (jstr "user-1") (jstr "t0")).1.valid
      = true ∧
    getRemainingKeysCount
        (validateAndUseAlphaKey ⟨[], none⟩ MASTER_KEY (jstr "user-1") (jstr "t0")).2.usedKeys
      = getRemainingKeysCount ([] : List UsedKeyInfo) - 1 ∧
    (validateAndUseAlphaKey ⟨[], none⟩ MASTER_KEY (jstr "user-1") (jstr "t0")).2.usedKeys
      = [] ++ [⟨normalizeKey MASTER_KEY, jstr "t0", jstr "user-1"⟩] := by
  exact ⟨C8_alpha_key_accounting.2.2.2 ⟨[], none⟩ (jstr "user-1") (jstr "t0"),
    (C8_alpha_key_accounting.2.2.1 ⟨[], none⟩ (jstr "user-1") (jstr "t0") (by decide)).2.1,
    C8_alpha_key_accounting.1 ⟨[], none⟩ MASTER_KEY (jstr "user-1") (jstr "t0")
      (by decide) (by decide)⟩

/-- Claim C9: alpha-key validation is invariant under trimming and
upper-casing, and `validateAndUseAlphaKey` records only the normalised
(trimmed, upper-cased) form of the key, both in the used-keys list and in
the stored user record. -/
theorem C9_key_normalization :
    (∀ k : JsStr, isValidAlphaKey k = isValidAlphaKey (jsToUpper (jsTrim k))) ∧
    (∀ (st : KeyStoreState) (k uid now : JsStr),
      ((validateAndUseAlphaKey st k uid now).2.usedKeys = st.usedKeys ∨
        (validateAndUseAlphaKey st k uid now).2.usedKeys
          = st.usedKeys ++ [⟨jsToUpper (jsTrim k), now, uid⟩]) ∧
      ((validateAndUseAlphaKey st k uid now).1.valid = true →
        ∀ u : UserData,
          (validateAndUseAlphaKey st k uid now).2.currentUser = some u →
          u.key = jsToUpper (jsTrim k))) := by
  constructor
  · intro k
    exact (isValidAlphaKey_normalizeKey k).symm
  · intro st k uid now
    rw [validateAndUseAlphaKey_eq]
    by_cases h1 : ¬ isValidAlphaKey k
    · rw [if_pos h1]
      exact ⟨Or.inl rfl, fun hv => absurd hv (by simp)⟩
    · rw [if_neg h1]
      by_cases h2 : isAlphaKeyUsed st.usedKeys k ∧ ¬ isMasterKey k
      · rw [if_pos h2]
        exact ⟨Or.inl rfl, fun hv => absurd hv (by simp)⟩
      · rw [if_neg h2]
        constructor
        · dsimp only
          by_cases h3 : isAlphaKeyUsed st.usedKeys k
          · rw [if_pos h3]
            exact Or.inl rfl
          · rw [if_neg h3]
            exact Or.inr rfl
        · intro _ u hu
          obtain rfl := Option.some.inj hu
          rfl

/-- Witness for C9_key_normalization: alpha key 01 entered lower-case with
surrounding whitespace validates, and the stored user record carries the
normalised key. -/
theorem C9_witness :
    isValidAlphaKey (jstr " alpha-01-k9m2-p8lq ")
      = isValidAlphaKey (jsToUpper (jsTrim (jstr " alpha-01-k9m2-p8lq "))) ∧
    storedAlphaUser.key = jsToUpper (jsTrim (jstr " alpha-01-k9m2-p8lq ")) := by
  exact ⟨C9_key_normalization.1 (jstr " alpha-01-k9m2-p8lq "),
    (C9_key_normalization.2 ⟨[], none⟩ (jstr " alpha-01-k9m2-p8lq ")
        (jstr "user-1") (jstr "t0")).2 (by decide) storedAlphaUser (by decide)⟩

/-- Claim C10: for a stored non-master user the upload counter never
exceeds `maxUploads` (20): `incrementUploadCount` returns `false` and
leaves the stored user unchanged at or above the cap, otherwise increments
the counter by exactly one and stays within the cap; user records are
created with counter 0; and `getUploadsRemaining` is never negative. -/
theorem C10_upload_limit :
    (∀ u : UserData, u.isMaster = false → u.maxUploads = JsNum.int 20 →
      ((20 ≤ u.uploadCount → incrementUploadCount (some u) = (false, some u)) ∧
       (u.uploadCount < 20 → incrementUploadCount (some u)
          = (true, some { u with uploadCount := u.uploadCount + 1 })) ∧
       (u.uploadCount ≤ 20 → ∀ v : UserData,
          (incrementUploadCount (some u)).2 = some v → v.uploadCount ≤ 20))) ∧
    (∀ k uid now : JsStr, (createUserData k uid now).uploadCount = 0) ∧
    (∀ user : Option UserData, (getUploadsRemaining user).nonneg) := by
  refine ⟨?_, fun k uid now => rfl, ?_⟩
  · intro u hm hc
    have hmain : incrementUploadCount (some u)
        = if uploadCountAtCap u.uploadCount u.maxUploads then (false, some u)
          else (true, some { u with uploadCount := u.uploadCount + 1 }) := by
      simp only [incrementUploadCount]
      rw [if_neg (by simp [hm])]
    have hcap : uploadCountAtCap u.uploadCount u.maxUploads
        = decide (20 ≤ u.uploadCount) := by
      rw [hc]
      rfl
    refine ⟨fun h20 => ?_, fun hlt => ?_, fun hle v hv => ?_⟩
    · rw [hmain, hcap, if_pos (by simpa using h20)]
    · rw [hmain, hcap, if_neg (by simpa using hlt)]
    · rw [hmain, hcap] at hv
      by_cases h20 : 20 ≤ u.uploadCount
      · rw [if_pos (by simpa using h20)] at hv
        obtain rfl := Option.some.inj hv
        exact hle
      · rw [if_neg (by simpa using h20)] at hv
        obtain rfl := Option.some.inj hv
        show u.uploadCount + 1 ≤ 20
        omega
  · intro user
    cases user with
    | none => exact le_refl 0
    | some u =>
      simp only [getUploadsRemaining]
      by_cases hm : u.isMaster
      · rw [if_pos hm]
        trivial
      · rw [if_neg hm]
        cases hmu : u.maxUploads with
        | int m =>
          show (0 : Int) ≤ max 0 (m - u.uploadCount)
          exact le_max_left 0 _
        | inf => trivial

/-- Witness for C10_upload_limit: a user at the cap is left unchanged with
result `false`, a user below the cap is incremented by one, and the
remaining-uploads value at the cap is non-negative. -/
theorem C10_witness :
    incrementUploadCount (some capUser) = (false, some capUser) ∧
    incrementUploadCount (some freshUser)
      = (true, some { freshUser with uploadCount := freshUser.uploadCount + 1 }) ∧
    (getUploadsRemaining (some capUser)).nonneg := by
  exact ⟨(C10_upload_limit.1 capUser rfl rfl).1 (by decide),
    (C10_upload_limit.1 freshUser rfl rfl).2.1 (by decide),
    C10_upload_limit.2.2 (some capUser)⟩

/-- Claim C1: for every run the number of retries performed is at most the
configured retry budget, and the orchestrator is a total function — even
with a Model Client that reports low quality on every attempt the run stops
after finitely many attempts and is marked failed. -/
theorem C1_retry_budget_and_termination (client : ModelClient) (q : Question)
    (threshold : ℚ) (retryBudget : Nat) :
    (orchestrate client q threshold retryBudget).1.retries ≤ retryBudget ∧
    (AlwaysLowQuality client q threshold →
      (orchestrate client q threshold retryBudget).1.status = RunStatus.failed) := by
  constructor
  · have h := (pipelineLoop_spec client q threshold retryBudget 0 none).2.1
    simpa [orchestrate] using h
  · intro hlow
    exact pipelineLoop_failed_of_lowQuality client q threshold hlow retryBudget 0 none

/-- Witness for C1_retry_budget_and_termination: the always-low-quality
mock client with budget 2 performs at most 2 retries and ends failed. -/
theorem C1_witness :
    AlwaysLowQuality lowQualityClient sampleQuestion 75 ∧
    (orchestrate lowQualityClient sampleQuestion 75 2).1.retries ≤ 2 ∧
    (orchestrate lowQualityClient sampleQuestion 75 2).1.status = RunStatus.failed := by
  have hlow : AlwaysLowQuality lowQualityClient sampleQuestion 75 := fun attempt fb => rfl
  exact ⟨hlow,
    (C1_retry_budget_and_termination lowQualityClient sampleQuestion 75 2).1,
    (C1_retry_budget_and_termination lowQualityClient sampleQuestion 75 2).2 hlow⟩

/-- Claim C3: every FinalAnswer the pipeline produces from well-formed
Model Client responses has a confidence score between 0 and 100. -/
theorem C3_confidence_score_range (client : ModelClient) (q : Question)
    (threshold : ℚ) (retryBudget : Nat) (hwf : ClientWF client) :
    0 ≤ (orchestrate client q threshold retryBudget).1.confidence_score ∧
    (orchestrate client q threshold retryBudget).1.confidence_score ≤ 100 := by
  obtain ⟨a, fb2, h | h⟩ := pipelineLoop_shape client q threshold retryBudget 0 none
  · have h2 : (orchestrate client q threshold retryBudget).1
        = successAnswer (runStages client q a fb2) a := h
    rw [h2]
    exact attemptConfidence_range client hwf q a fb2
  · have h2 : (orchestrate client q threshold retryBudget).1
        = exhaustedAnswer (runStages client q a fb2) a := h
    rw [h2]
    exact attemptConfidence_range client hwf q a fb2

/-- Witness for C3_confidence_score_range at the maximal-quality mock
client. -/
theorem C3_witness :
    ClientWF goodClient ∧
    0 ≤ (orchestrate goodClient sampleQuestion 75 2).1.confidence_score ∧
    (orchestrate goodClient sampleQuestion 75 2).1.confidence_score ≤ 100 := by
  have hwf : ClientWF goodClient := by
    refine ⟨fun q a fb => ?_, fun q a g => ?_, fun q a g => ?_⟩ <;>
      norm_num [goodClient]
  exact ⟨hwf, (C3_confidence_score_range goodClient sampleQuestion 75 2 hwf).1,
    (C3_confidence_score_range goodClient sampleQuestion 75 2 hwf).2⟩

/-- Claim C4: exhausting the retry budget ends the run with terminal status
`failed`, and every failed run still returns a FinalAnswer whose
`final_answer` holds the human-readable failure explanation after all
budget-many retries — the orchestrator is total, so no fault escapes to the
caller. -/
theorem C4_budget_exhaustion_diagnostic (client : ModelClient) (q : Question)
    (threshold : ℚ) (retryBudget : Nat) :
    (AlwaysLowQuality client q threshold →
      (orchestrate client q threshold retryBudget).1.status = RunStatus.failed) ∧
    ((orchestrate client q threshold retryBudget).1.status = RunStatus.failed →
      (orchestrate client q threshold retryBudget).1.final_answer = failureMessage ∧
      (orchestrate client q threshold retryBudget).1.retries = retryBudget) := by
  constructor
  · intro hlow
    exact pipelineLoop_failed_of_lowQuality client q threshold hlow retryBudget 0 none
  · intro hf
    have h := (pipelineLoop_spec client q threshold retryBudget 0 none).2.2.2 hf
    exact ⟨h.2, by simpa [orchestrate] using h.1⟩

/-- Witness for C4_budget_exhaustion_diagnostic: the always-low-quality
client with budget 1 ends failed with the diagnostic failure message. -/
theorem C4_witness :
    AlwaysLowQuality lowQualityClient sampleQuestion 75 ∧
    (orchestrate lowQualityClient sampleQuestion 75 1).1.status = RunStatus.failed ∧
    (orchestrate lowQualityClient sampleQuestion 75 1).1.final_answer = failureMessage := by
  have hlow : AlwaysLowQuality lowQualityClient sampleQuestion 75 := fun attempt fb => rfl
  have hfail := (C4_budget_exhaustion_diagnostic lowQualityClient sampleQuestion 75 1).1 hlow
  exact ⟨hlow, hfail,
    ((C4_budget_exhaustion_diagnostic lowQualityClient sampleQuestion 75 1).2 hfail).1⟩

/-- Claim C5: the derived confidence score is monotonically non-decreasing
in each of its four inputs — generator confidence, alignment score, the
inverse-severity value and the score percentage — holding the other three
fixed, and is deterministic given the same four inputs. -/
theorem C5_confidence_monotone_deterministic :
    (∀ (g g2 a s : ℚ) (sev : Severity), g ≤ g2 →
      confidenceScore g a sev s ≤ confidenceScore g2 a sev s) ∧
    (∀ (g a a2 s : ℚ) (sev : Severity), a ≤ a2 →
      confidenceScore g a sev s ≤ confidenceScore g a2 sev s) ∧
    (∀ (g a s : ℚ) (sev sev2 : Severity), invSeverity sev ≤ invSeverity sev2 →
      confidenceScore g a sev s ≤ confidenceScore g a sev2 s) ∧
    (∀ (g a s s2 : ℚ) (sev : Severity), s ≤ s2 →
      confidenceScore g a sev s ≤ confidenceScore g a sev s2) ∧
    (∀ (g a s : ℚ) (sev : Severity), confidenceScore g a sev s = confidenceScore g a sev s) := by
  have h4 : (0 : ℚ) < 4 := by norm_num
  refine ⟨?_, ?_, ?_, ?_, fun g a s sev => rfl⟩
  · intro g g2 a s sev h
    unfold confidenceScore
    rw [div_le_div_iff_of_pos_right h4]
    linarith
  · intro g a a2 s sev h
    unfold confidenceScore
    rw [div_le_div_iff_of_pos_right h4]
    linarith
  · intro g a s sev sev2 h
    unfold confidenceScore
    rw [div_le_div_iff_of_pos_right h4]
    linarith
  · intro g a s s2 sev h
    unfold confidenceScore
    rw [div_le_div_iff_of_pos_right h4]
    linarith

/-- Witness for C5_confidence_monotone_deterministic at concrete inputs,
one per monotone argument. -/
theorem C5_witness :
    confidenceScore (1/2) 80 Severity.low 70 ≤ confidenceScore (3/4) 80 Severity.low 70 ∧
    confidenceScore (1/2) 60 Severity.low 70 ≤ confidenceScore (1/2) 80 Severity.low 70 ∧
    confidenceScore (1/2) 80 Severity.high 70 ≤ confidenceScore (1/2) 80 Severity.none 70 ∧
    confidenceScore (1/2) 80 Severity.low 60 ≤ confidenceScore (1/2) 80 Severity.low 70 := by
  exact ⟨C5_confidence_monotone_deterministic.1 (1/2) (3/4) 80 70 Severity.low (by norm_num),
    C5_confidence_monotone_deterministic.2.1 (1/2) 60 80 70 Severity.low (by norm_num),
    C5_confidence_monotone_deterministic.2.2.1 (1/2) 80 70 Severity.high Severity.none
      (by norm_num [invSeverity]),
    C5_confidence_monotone_deterministic.2.2.2.1 (1/2) 80 60 70 Severity.low (by norm_num)⟩

/-- Claim C6: the Layer4Output recorded by the pipeline satisfies
`0 ≤ predicted_score ≤ max_marks` whenever the Model Client reports a
non-negative maximum, even when its raw predicted score is out of range;
the scorer adapter clamps any raw value. -/
theorem C6_predicted_score_clamped (client : ModelClient) (q : Question)
    (threshold : ℚ) (retryBudget : Nat)
    (hm : ∀ (q2 : Question) (a : Nat) (g : Layer1Output), 0 ≤ (client.score q2 a g).2.1) :
    0 ≤ (orchestrate client q threshold retryBudget).1.layer4_output.predicted_score ∧
    (orchestrate client q threshold retryBudget).1.layer4_output.predicted_score
      ≤ (orchestrate client q threshold retryBudget).1.layer4_output.max_marks := by
  obtain ⟨a, fb2, h | h⟩ := pipelineLoop_shape client q threshold retryBudget 0 none
  · have h2 : (orchestrate client q threshold retryBudget).1
        = successAnswer (runStages client q a fb2) a := h
    rw [h2]
    have h4 := mkLayer4Output_range (client.score q a (client.generate q a fb2)).1
      (client.score q a (client.generate q a fb2)).2.1
      (client.score q a (client.generate q a fb2)).2.2
      (hm q a (client.generate q a fb2))
    exact ⟨h4.1, h4.2.1⟩
  · have h2 : (orchestrate client q threshold retryBudget).1
        = exhaustedAnswer (runStages client q a fb2) a := h
    rw [h2]
    have h4 := mkLayer4Output_range (client.score q a (client.generate q a fb2)).1
      (client.score q a (client.generate q a fb2)).2.1
      (client.score q a (client.generate q a fb2)).2.2
      (hm q a (client.generate q a fb2))
    exact ⟨h4.1, h4.2.1⟩

/-- Witness for C6_predicted_score_clamped: a client whose raw predicted
score 12 exceeds the maximum 5 still records a clamped score, namely 5. -/
theorem C6_witness :
    (0 ≤ (orchestrate outOfRangeClient sampleQuestion 75 0).1.layer4_output.predicted_score ∧
      (orchestrate outOfRangeClient sampleQuestion 75 0).1.layer4_output.predicted_score
        ≤ (orchestrate outOfRangeClient sampleQuestion 75 0).1.layer4_output.max_marks) ∧
    (orchestrate outOfRangeClient sampleQuestion 75 0).1.layer4_output.predicted_score = 5 := by
  refine ⟨C6_predicted_score_clamped outOfRangeClient sampleQuestion 75 0
    (fun q2 a g => by norm_num [outOfRangeClient]), ?_⟩
  have h : stagesOk 75 (runStages outOfRangeClient sampleQuestion 0 none) = true := by
    norm_num [stagesOk, runStages, outOfRangeClient, mkLayer4Output]
    decide
  show (pipelineLoop outOfRangeClient sampleQuestion 75 0 0 none).1.layer4_output.predicted_score = 5
  simp only [pipelineLoop, h, if_true]
  norm_num [runStages, outOfRangeClient, mkLayer4Output, successAnswer]

/-- Claim C7: within one run the stages are invoked in the fixed order
Generator → Validator → Auditor → Scorer, one block per attempt, and the
verification record presents layers 1 through 4 in exactly this order. -/
theorem C7_stage_order (client : ModelClient) (q : Question) (threshold : ℚ)
    (retryBudget : Nat) :
    (orchestrate client q threshold retryBudget).2
      = stageBlocks ((orchestrate client q threshold retryBudget).1.retries + 1) ∧
    verificationLayers.map LayerEntry.id = [1, 2, 3, 4] ∧
    verificationLayers.map LayerEntry.name
      = [jstr "Generator", jstr "Validator", jstr "Auditor", jstr "Scorer"] := by
  refine ⟨?_, rfl, rfl⟩
  have h := (pipelineLoop_spec client q threshold retryBudget 0 none).2.2.1
  simpa [orchestrate] using h

end CPE
